import Mathlib

/-!
Verification of the real-time audio streaming / playback-scheduling core of
the feng_canvas client (src/services/geminiService.ts and the VoiceAssistant
component), as a shallow embedding.

Times and durations are modelled as rationals.  The playback scheduler state
is the pair of the `nextStartTimeRef` cursor and the `sourceNodesRef` set of
in-flight `AudioBufferSourceNode`s (modelled as a list in insertion order).
-/

namespace FengCanvas

/-- One `AudioBufferSourceNode` as scheduled by the VoiceAssistant audio
branch: the time passed to `sourceNode.start` and the decoded buffer's
duration. -/
structure SourceNode where
  startTime : ℚ
  duration  : ℚ
  deriving DecidableEq

/-- The scheduling step of the onMessage audio branch (lines 208, 225-227):
`nextStartTime := max nextStartTime now`, the node starts at that cursor
value, and the cursor then advances by the buffer's duration.  Returns the
new cursor and the scheduled node. -/
def scheduleFragment (cursor now d : ℚ) : ℚ × SourceNode :=
  (max cursor now + d, ⟨max cursor now, d⟩)

/-- Scheduling a whole sequence of fragments, each given as a pair
(current time at arrival, decoded duration), with no intervening flush.
Returns the final cursor and the scheduled nodes in order. -/
def runSchedule : ℚ → List (ℚ × ℚ) → ℚ × List SourceNode
  | c, [] => (c, [])
  | c, (now, d) :: rest =>
      ((runSchedule (scheduleFragment c now d).1 rest).1,
       (scheduleFragment c now d).2 :: (runSchedule (scheduleFragment c now d).1 rest).2)

/-- Connection status of the VoiceAssistant component
(`connectionStatus` state). -/
inductive ConnStatus
  | disconnected
  | connecting
  | connected
  deriving DecidableEq

/-- The mutable refs of the VoiceAssistant component that the claims are
about.  `sourceNodes` is the active set `sourceNodesRef`; `stoppedNodes`
records every node on which `node.stop()` has been called; `pendingDecodes`
holds the durations of audio fragments whose asynchronous
`decodeAudioData` call is still in flight (the code awaits the decode
between reading the cursor and calling `sourceNode.start`). -/
structure VAState where
  connectionStatus : ConnStatus
  inputCtxOpen : Bool
  streamActive : Bool
  processorConnected : Bool
  outputCtxOpen : Bool
  sessionOpen : Bool
  nextStartTime : ℚ
  sourceNodes : List SourceNode
  stoppedNodes : List SourceNode
  pendingDecodes : List ℚ
  deriving DecidableEq

/-- The `stopAudio` callback (geminiService.ts lines 152-171): close the
input audio context, stop the media stream tracks, disconnect the
processor, stop every node in `sourceNodesRef` and clear the set, and reset
`nextStartTimeRef` to 0.  The output context is deliberately left open. -/
def stopAudio (s : VAState) : VAState :=
  { s with inputCtxOpen := false, streamActive := false, processorConnected := false,
           stoppedNodes := s.stoppedNodes ++ s.sourceNodes,
           sourceNodes := [],
           nextStartTime := 0 }

/-- The asynchronous events that mutate the VoiceAssistant refs.
`audioArrive now d` is the synchronous part of the onMessage audio branch
(cursor max-update, decode started); `decodeDone` is the resumption of the
oldest in-flight decode (node created, started at the current cursor value,
cursor advanced, node added to the set); `interrupted` is the onMessage
interruption branch; `localToggleOff` is the toggle effect's stop branch;
`remoteClose` is the onClose callback; `unmount` is the cleanup effect. -/
inductive VAEvent
  | audioArrive (now d : ℚ)
  | decodeDone
  | interrupted
  | localToggleOff
  | remoteClose
  | unmount

/-- One event-handler execution, translated branch by branch from
geminiService.ts (onMessage lines 195-236, toggle effect lines 271-283,
onClose lines 242-245, unmount effect lines 286-297).  Note that the code
re-checks nothing after the awaited decode resumes: `decodeDone` schedules
unconditionally. -/
def step (s : VAState) : VAEvent → VAState
  | .audioArrive now d =>
      if s.outputCtxOpen then
        { s with nextStartTime := max s.nextStartTime now,
                 pendingDecodes := s.pendingDecodes ++ [d] }
      else s
  | .decodeDone =>
      match s.pendingDecodes with
      | [] => s
      | d :: rest =>
          { s with nextStartTime := s.nextStartTime + d,
                   sourceNodes := s.sourceNodes ++ [⟨s.nextStartTime, d⟩],
                   pendingDecodes := rest }
  | .interrupted =>
      { s with stoppedNodes := s.stoppedNodes ++ s.sourceNodes,
               sourceNodes := [],
               nextStartTime := 0 }
  | .localToggleOff =>
      if s.connectionStatus = .connected then
        { stopAudio s with sessionOpen := false, connectionStatus := .disconnected }
      else s
  | .remoteClose => { s with connectionStatus := .disconnected }
  | .unmount =>
      { stopAudio s with sessionOpen := false, outputCtxOpen := false }

/-- Folding a list of events through `step`. -/
def run (s : VAState) : List VAEvent → VAState
  | [] => s
  | e :: es => run (step s e) es

/-- The individual side-effecting statements performed during teardown, used
to state ordering claims.  Each constructor names one statement of the
source. -/
inductive TDAction
  | closeInputCtx
  | stopStreamTracks
  | disconnectProcessor
  | stopActiveNodes
  | clearActiveSet
  | resetCursor
  | closeConnection
  | setStatusDisconnected
  | closeOutputCtx
  deriving DecidableEq

/-- The statement order of `stopAudio` (lines 152-171). -/
def stopAudioActions : List TDAction :=
  [.closeInputCtx, .stopStreamTracks, .disconnectProcessor,
   .stopActiveNodes, .clearActiveSet, .resetCursor]

/-- The execution order of the toggle effect's stop branch (lines 274-280).
The branch runs `stopAudio()` synchronously, registers the connection close
via `sessionRef.current.then(s => s.close())`, and synchronously calls
`setConnectionStatus('disconnected')`.  A `.then` callback is deferred to a
microtask, so `s.close()` executes only after the handler's synchronous
tail: the close comes last in execution order. -/
def toggleOffActions : List TDAction :=
  stopAudioActions ++ [.setStatusDisconnected, .closeConnection]

/-- The execution order of the unmount cleanup effect (lines 286-297).
The cleanup runs `stopAudio()` synchronously, registers the connection
close via `sessionRef.current.then(s => s.close().catch(...))`, and
synchronously calls `audioContextOutputRef.current.close()`.  The deferred
`.then` callback executes only after the synchronous output-context close,
so the connection close comes last in execution order. -/
def unmountActions : List TDAction :=
  stopAudioActions ++ [.closeOutputCtx, .closeConnection]

/-- The statement order of the onClose callback (lines 242-245): only a
status transition. -/
def onCloseActions : List TDAction :=
  [.setStatusDisconnected]

/-- Index of the first occurrence of an action in a list. -/
def pos : List TDAction → TDAction → ℕ
  | [], _ => 0
  | b :: l, a => if a = b then 0 else pos l a + 1

/-- Action `a` occurs and its first occurrence is strictly before the first
occurrence of `b`. -/
abbrev precedes (l : List TDAction) (a b : TDAction) : Prop :=
  a ∈ l ∧ b ∈ l ∧ pos l a < pos l b

/-- State of the outbound transmit path: the session promise
(`sessionPromise`) together with the frames whose `.then` callback is still
waiting for resolution (`queuedFrames`) and the frames already passed to
`session.sendRealtimeInput` (`sentFrames`). -/
structure TransmitState (α : Type) where
  resolved : Bool
  queuedFrames : List α
  sentFrames : List α
  deriving DecidableEq

/-- Events of the transmit path: `frame b` is one `onaudioprocess`
invocation calling `sessionPromise.then`; `resolveConn` is the session
promise resolving, which runs the pending callbacks in registration
order. -/
inductive TxEvent (α : Type)
  | frame (b : α)
  | resolveConn

/-- Promise semantics of `sessionPromise.then(session => session.sendRealtimeInput(...))`
(lines 251-258): callbacks registered while the promise is pending run in
registration order on resolution; callbacks registered after resolution run
immediately, still in order. -/
def txStep {α : Type} (s : TransmitState α) : TxEvent α → TransmitState α
  | .frame b =>
      if s.resolved then { s with sentFrames := s.sentFrames ++ [b] }
      else { s with queuedFrames := s.queuedFrames ++ [b] }
  | .resolveConn =>
      { s with resolved := true,
               sentFrames := s.sentFrames ++ s.queuedFrames,
               queuedFrames := [] }

/-- Folding transmit events. -/
def txRun {α : Type} (s : TransmitState α) : List (TxEvent α) → TransmitState α
  | [] => s
  | e :: es => txRun (txStep s e) es

/-- The frames produced by the capture source, in capture order. -/
def capturedFrames {α : Type} : List (TxEvent α) → List α
  | [] => []
  | .frame b :: es => b :: capturedFrames es
  | .resolveConn :: es => capturedFrames es

/-- Initial transmit state: promise pending, nothing queued or sent. -/
def txInit {α : Type} : TransmitState α :=
  ⟨false, [], []⟩

/-- The `refinePromptWithSearch` function (lines 31-51).  The backend call
either throws (`Except.error`) or yields `response.text`, which may be
absent (`none`) or any string; the code returns
`response.text || originalPrompt`, so an absent or empty text falls back to
the original prompt, and a thrown error is caught and also falls back. -/
def refinePromptWithSearch (backendText : Except Unit (Option String))
    (originalPrompt : String) : String :=
  match backendText with
  | .error _ => originalPrompt
  | .ok none => originalPrompt
  | .ok (some t) => if t = "" then originalPrompt else t

/-- One element of the backend's `generatedImages` array. -/
structure GeneratedImage where
  imageBytes : String
  deriving DecidableEq

/-- The `generateImage` function (lines 7-28), abstracted over the backend
response: if the response has no `generatedImages` field the code throws
"No images generated"; otherwise it maps each image to a data URL built by
prepending "data:image/jpeg;base64," to its bytes. -/
def generateImage (generatedImages : Option (List GeneratedImage)) :
    Except String (List String) :=
  match generatedImages with
  | none => Except.error "No images generated"
  | some imgs => Except.ok (imgs.map fun img => "data:image/jpeg;base64," ++ img.imageBytes)

/-! Theorems -/

/-- The first handle produced by `runSchedule` starts at the maximum of the
incoming cursor and the fragment's arrival time, with the fragment's
duration. -/
theorem runSchedule_head (c : ℚ) (frags : List (ℚ × ℚ)) (h : SourceNode) (p : ℚ × ℚ)
    (hh : ((runSchedule c frags).2)[0]? = some h) (hp : frags[0]? = some p) :
    h.startTime = max c p.1 ∧ h.duration = p.2 := by
  cases frags with
  | nil => simp [runSchedule] at hh
  | cons q rest =>
      obtain ⟨now, d⟩ := q
      simp [runSchedule, scheduleFragment] at hh hp
      cases hp
      cases hh
      exact ⟨rfl, rfl⟩

/-- Two consecutive handles produced by `runSchedule` with no intervening
flush: the later one starts at the maximum of the end of the earlier one
and its own arrival time. -/
theorem runSchedule_consecutive (c : ℚ) (frags : List (ℚ × ℚ)) (i : ℕ)
    (h h' : SourceNode) (p' : ℚ × ℚ)
    (h1 : ((runSchedule c frags).2)[i]? = some h)
    (h2 : ((runSchedule c frags).2)[i + 1]? = some h')
    (h3 : frags[i + 1]? = some p') :
    h'.startTime = max (h.startTime + h.duration) p'.1 := by
  induction frags generalizing c i with
  | nil => simp [runSchedule] at h1
  | cons q rest ih =>
      obtain ⟨now, d⟩ := q
      cases i with
      | zero =>
          simp [runSchedule, scheduleFragment] at h1 h2 h3
          cases h1
          have := runSchedule_head (max c now + d) rest h' p' h2 h3
          simpa using this.1
      | succ i =>
          simp only [runSchedule, List.getElem?_cons_succ] at h1 h2 h3
          exact ih (scheduleFragment c now d).1 i h1 h2 h3

/-- Claim C1 (gapless scheduling): every scheduled fragment's start time is
max(cursor, current time) at the moment it is scheduled and the cursor then
advances by the fragment's duration; and for any sequence scheduled without
an intervening flush, handle i+1 starts at handle i's start time plus
handle i's duration, or at the arrival-time "now" if that is later (i.e. at
the maximum of the two), and never earlier than handle i's end. -/
theorem C1_gapless_scheduling (c : ℚ) (frags : List (ℚ × ℚ)) (i : ℕ)
    (h h' : SourceNode) (p' : ℚ × ℚ)
    (h1 : ((runSchedule c frags).2)[i]? = some h)
    (h2 : ((runSchedule c frags).2)[i + 1]? = some h')
    (h3 : frags[i + 1]? = some p') :
    (∀ cur now d, (scheduleFragment cur now d).2.startTime = max cur now ∧
        (scheduleFragment cur now d).1 = (scheduleFragment cur now d).2.startTime + d) ∧
    h'.startTime = max (h.startTime + h.duration) p'.1 ∧
    h.startTime + h.duration ≤ h'.startTime := by
  have heq := runSchedule_consecutive c frags i h h' p' h1 h2 h3
  refine ⟨fun cur now d => ⟨rfl, rfl⟩, heq, ?_⟩
  rw [heq]
  exact le_max_left _ _

/-- Witness for C1: two fragments of durations 1 and 2 arriving at time 0
on a fresh scheduler; the second handle starts exactly when the first
ends. -/
theorem C1_gapless_scheduling_witness :
    (((runSchedule 0 [((0 : ℚ), (1 : ℚ)), ((0 : ℚ), (2 : ℚ))]).2)[0]? = some ⟨0, 1⟩) ∧
    (((runSchedule 0 [((0 : ℚ), (1 : ℚ)), ((0 : ℚ), (2 : ℚ))]).2)[1]? = some ⟨1, 2⟩) ∧
    ([((0 : ℚ), (1 : ℚ)), ((0 : ℚ), (2 : ℚ))][1]? = some ((0 : ℚ), (2 : ℚ))) ∧
    ((⟨1, 2⟩ : SourceNode).startTime
        = max ((⟨0, 1⟩ : SourceNode).startTime + (⟨0, 1⟩ : SourceNode).duration) ((0 : ℚ), (2 : ℚ)).1 ∧
      (⟨0, 1⟩ : SourceNode).startTime + (⟨0, 1⟩ : SourceNode).duration
        ≤ (⟨1, 2⟩ : SourceNode).startTime) := by
  have hk1 : ((runSchedule 0 [((0 : ℚ), (1 : ℚ)), ((0 : ℚ), (2 : ℚ))]).2)[0]? = some ⟨0, 1⟩ := by
    simp [runSchedule, scheduleFragment]
  have hk2 : ((runSchedule 0 [((0 : ℚ), (1 : ℚ)), ((0 : ℚ), (2 : ℚ))]).2)[1]? = some ⟨1, 2⟩ := by
    simp [runSchedule, scheduleFragment]
  have hk3 : ([((0 : ℚ), (1 : ℚ)), ((0 : ℚ), (2 : ℚ))][1]? = some ((0 : ℚ), (2 : ℚ))) := by
    simp
  exact ⟨hk1, hk2, hk3,
    (C1_gapless_scheduling 0 [((0 : ℚ), (1 : ℚ)), ((0 : ℚ), (2 : ℚ))] 0 ⟨0, 1⟩ ⟨1, 2⟩
      ((0 : ℚ), (2 : ℚ)) hk1 hk2 hk3).2⟩

/-- Claim C2 (post-teardown cancellation) fails on the code: starting from a
connected session, an audio fragment arrives (its asynchronous decode
starts), the user stops the session (teardown: active set emptied, cursor
reset, session closed), and then the decode completes.  The onMessage audio
branch re-checks nothing after the awaited decode resumes, so the
late-decoded fragment is started and added to the active set anyway: right
after teardown the active set is empty, yet after the late decode it holds
a playing node and the cursor has advanced. -/
theorem C2_late_decode_mutates_after_teardown :
    ((run ⟨.connected, true, true, true, true, true, 0, [], [], []⟩
        [.audioArrive 0 2, .localToggleOff]).sourceNodes = [] ∧
      (run ⟨.connected, true, true, true, true, true, 0, [], [], []⟩
        [.audioArrive 0 2, .localToggleOff]).nextStartTime = 0 ∧
      (run ⟨.connected, true, true, true, true, true, 0, [], [], []⟩
        [.audioArrive 0 2, .localToggleOff]).connectionStatus = .disconnected) ∧
    (run ⟨.connected, true, true, true, true, true, 0, [], [], []⟩
        [.audioArrive 0 2, .localToggleOff, .decodeDone]).sourceNodes = [⟨0, 2⟩] ∧
    (run ⟨.connected, true, true, true, true, true, 0, [], [], []⟩
        [.audioArrive 0 2, .localToggleOff, .decodeDone]).nextStartTime = 2 := by
  refine ⟨⟨?_, ?_, ?_⟩, ?_, ?_⟩ <;> simp [run, step, stopAudio]

/-- Claim C3 (interruption handling): processing an interruption signal
stops every currently active playback handle, clears the active set, and
resets the cursor to 0. -/
theorem C3_interruption_flush (s : VAState) :
    (step s .interrupted).sourceNodes = [] ∧
    (step s .interrupted).nextStartTime = 0 ∧
    (step s .interrupted).stoppedNodes = s.stoppedNodes ++ s.sourceNodes ∧
    (∀ n, n ∈ s.sourceNodes → n ∈ (step s .interrupted).stoppedNodes) := by
  refine ⟨rfl, rfl, rfl, ?_⟩
  intro n hn
  simp only [step, List.mem_append]
  exact Or.inr hn

/-- Witness for C3: fragments A and B are both active when the interruption
arrives; afterwards both have been stopped. -/
theorem C3_interruption_flush_witness :
    ((⟨0, 1⟩ : SourceNode) ∈
        (⟨.connected, true, true, true, true, true, 3, [⟨0, 1⟩, ⟨1, 2⟩], [], []⟩ : VAState).sourceNodes) ∧
    ((⟨1, 2⟩ : SourceNode) ∈
        (⟨.connected, true, true, true, true, true, 3, [⟨0, 1⟩, ⟨1, 2⟩], [], []⟩ : VAState).sourceNodes) ∧
    ((⟨0, 1⟩ : SourceNode) ∈
        (step ⟨.connected, true, true, true, true, true, 3, [⟨0, 1⟩, ⟨1, 2⟩], [], []⟩ .interrupted).stoppedNodes) ∧
    ((⟨1, 2⟩ : SourceNode) ∈
        (step ⟨.connected, true, true, true, true, true, 3, [⟨0, 1⟩, ⟨1, 2⟩], [], []⟩ .interrupted).stoppedNodes) :=
  ⟨by decide, by decide,
   (C3_interruption_flush _).2.2.2 ⟨0, 1⟩ (by decide),
   (C3_interruption_flush _).2.2.2 ⟨1, 2⟩ (by decide)⟩

/-- Claim C4 as stated is false: on a user-initiated local stop the
already-scheduled playback handle is NOT left playing untouched — the
active set is emptied and the handle receives stop(). -/
theorem C4_local_stop_counterexample :
    ¬ ((step ⟨.connected, true, true, true, true, true, 2, [⟨0, 2⟩], [], []⟩ .localToggleOff).sourceNodes
        = (⟨.connected, true, true, true, true, true, 2, [⟨0, 2⟩], [], []⟩ : VAState).sourceNodes) ∧
    (step ⟨.connected, true, true, true, true, true, 2, [⟨0, 2⟩], [], []⟩ .localToggleOff).sourceNodes = [] ∧
    ((⟨0, 2⟩ : SourceNode) ∈
      (step ⟨.connected, true, true, true, true, true, 2, [⟨0, 2⟩], [], []⟩ .localToggleOff).stoppedNodes) := by
  refine ⟨?_, ?_, ?_⟩ <;> simp [step, stopAudio]

/-- Claim C4 amended: a user-initiated local stop of listening stops the
capture source, closes the remote connection, transitions to Disconnected,
and ALSO flushes the playback scheduler (stops every active handle, clears
the active set, resets the cursor); the only output-path resource it leaves
untouched is the output device context, which is released only on
unmount. -/
theorem C4_local_stop_behaviour (s : VAState) (hconn : s.connectionStatus = .connected) :
    (step s .localToggleOff).inputCtxOpen = false ∧
    (step s .localToggleOff).streamActive = false ∧
    (step s .localToggleOff).processorConnected = false ∧
    (step s .localToggleOff).sessionOpen = false ∧
    (step s .localToggleOff).connectionStatus = .disconnected ∧
    (step s .localToggleOff).sourceNodes = [] ∧
    (step s .localToggleOff).nextStartTime = 0 ∧
    (step s .localToggleOff).stoppedNodes = s.stoppedNodes ++ s.sourceNodes ∧
    (step s .localToggleOff).outputCtxOpen = s.outputCtxOpen := by
  simp [step, stopAudio, hconn]

/-- Witness for C4 amended: concrete connected state with one active
handle. -/
theorem C4_local_stop_behaviour_witness :
    ((⟨.connected, true, true, true, true, true, 2, [⟨0, 2⟩], [], []⟩ : VAState).connectionStatus
        = .connected) ∧
    (step ⟨.connected, true, true, true, true, true, 2, [⟨0, 2⟩], [], []⟩ .localToggleOff).outputCtxOpen
      = (⟨.connected, true, true, true, true, true, 2, [⟨0, 2⟩], [], []⟩ : VAState).outputCtxOpen :=
  ⟨rfl, (C4_local_stop_behaviour _ rfl).2.2.2.2.2.2.2.2⟩

/-- Claim C7 as stated is false: on a remote close signal the session does
transition to Disconnected, but the capture source is NOT stopped — the
stream, processor and input context are all left running. -/
theorem C7_remote_close_counterexample :
    (step ⟨.connected, true, true, true, true, true, 0, [], [], []⟩ .remoteClose).connectionStatus
        = .disconnected ∧
    ¬ ((step ⟨.connected, true, true, true, true, true, 0, [], [], []⟩ .remoteClose).streamActive = false) ∧
    ¬ ((step ⟨.connected, true, true, true, true, true, 0, [], [], []⟩ .remoteClose).processorConnected = false) ∧
    ¬ ((step ⟨.connected, true, true, true, true, true, 0, [], [], []⟩ .remoteClose).inputCtxOpen = false) := by
  refine ⟨?_, ?_, ?_, ?_⟩ <;> simp [step]

/-- Claim C7 amended: when the remote peer delivers a close signal, the
session transitions to Disconnected and nothing else changes; in
particular the capture source (microphone stream, processor, input
context) keeps running. -/
theorem C7_remote_close_behaviour (s : VAState) :
    (step s .remoteClose).connectionStatus = .disconnected ∧
    (step s .remoteClose).streamActive = s.streamActive ∧
    (step s .remoteClose).processorConnected = s.processorConnected ∧
    (step s .remoteClose).inputCtxOpen = s.inputCtxOpen ∧
    step s .remoteClose = { s with connectionStatus := .disconnected } :=
  ⟨rfl, rfl, rfl, rfl, rfl⟩

/-- Claim C8 (flush idempotence): one flush leaves the active set empty and
the cursor at 0; a second flush in a row does the same and changes nothing
at all; and flushing a scheduler whose active set is already empty and
whose cursor is already 0 is a no-op. -/
theorem C8_flush_idempotent (s : VAState) :
    (step s .interrupted).sourceNodes = [] ∧
    (step s .interrupted).nextStartTime = 0 ∧
    (step (step s .interrupted) .interrupted).sourceNodes = [] ∧
    (step (step s .interrupted) .interrupted).nextStartTime = 0 ∧
    step (step s .interrupted) .interrupted = step s .interrupted ∧
    (s.sourceNodes = [] → s.nextStartTime = 0 → step s .interrupted = s) := by
  obtain ⟨cs, i1, i2, i3, i4, i5, cur, nodes, stopped, pend⟩ := s
  refine ⟨rfl, rfl, rfl, rfl, ?_, ?_⟩
  · simp [step]
  · intro h1 h2
    subst h1
    subst h2
    simp [step]

/-- Witness for C8: flushing an already-empty scheduler (with a nonempty
history of stopped nodes) is the identity. -/
theorem C8_flush_idempotent_witness :
    ((⟨.connected, true, true, true, true, true, 0, [], [⟨0, 1⟩], []⟩ : VAState).sourceNodes = []) ∧
    ((⟨.connected, true, true, true, true, true, 0, [], [⟨0, 1⟩], []⟩ : VAState).nextStartTime = 0) ∧
    step (⟨.connected, true, true, true, true, true, 0, [], [⟨0, 1⟩], []⟩ : VAState) .interrupted
      = ⟨.connected, true, true, true, true, true, 0, [], [⟨0, 1⟩], []⟩ :=
  ⟨rfl, rfl, (C8_flush_idempotent _).2.2.2.2.2 rfl rfl⟩

/-- Claim C5 as stated is false: the claimed teardown order puts closing the
connection before flushing the scheduler, but both on explicit stop and on
unmount the code runs `stopAudio()` (which contains the flush) first, so
the flush precedes the connection close; moreover on explicit stop the
output device context is never released at all. -/
theorem C5_teardown_order_counterexample :
    ¬ precedes toggleOffActions .closeConnection .stopActiveNodes ∧
    ¬ precedes unmountActions .closeConnection .stopActiveNodes ∧
    TDAction.closeOutputCtx ∉ toggleOffActions := by
  decide

/-- Claim C5 amended: both on explicit stop and on unmount the teardown
executes in this order: stop the capture source (close input context, stop
stream tracks, disconnect processor), then flush the playback scheduler
(stop active handles, clear the set, reset the cursor) — both inside the
synchronous stopAudio() — then the handler's synchronous tail (the status
transition on explicit stop; the output-context release on unmount), and
the remote connection close executes last of all, because it is deferred
to a promise callback.  The output device context is released only on
unmount, never on explicit stop. -/
theorem C5_teardown_order :
    precedes toggleOffActions .closeInputCtx .stopStreamTracks ∧
    precedes toggleOffActions .stopStreamTracks .disconnectProcessor ∧
    precedes toggleOffActions .disconnectProcessor .stopActiveNodes ∧
    precedes toggleOffActions .stopActiveNodes .clearActiveSet ∧
    precedes toggleOffActions .clearActiveSet .resetCursor ∧
    precedes toggleOffActions .resetCursor .setStatusDisconnected ∧
    precedes toggleOffActions .setStatusDisconnected .closeConnection ∧
    precedes unmountActions .closeInputCtx .stopStreamTracks ∧
    precedes unmountActions .stopStreamTracks .disconnectProcessor ∧
    precedes unmountActions .disconnectProcessor .stopActiveNodes ∧
    precedes unmountActions .stopActiveNodes .clearActiveSet ∧
    precedes unmountActions .clearActiveSet .resetCursor ∧
    precedes unmountActions .resetCursor .closeOutputCtx ∧
    precedes unmountActions .closeOutputCtx .closeConnection ∧
    TDAction.closeOutputCtx ∉ toggleOffActions := by
  refine ⟨?_, ?_, ?_, ?_, ?_, ?_, ?_, ?_, ?_, ?_, ?_, ?_, ?_, ?_, ?_⟩ <;> decide

/-- Every transmit run preserves the captured frames in order, split into
the sent part followed by the still-queued part; and once the session
promise has resolved the queue stays empty. -/
theorem txRun_preserves {α : Type} (es : List (TxEvent α)) :
    ∀ s : TransmitState α, (s.resolved = true → s.queuedFrames = []) →
      ((txRun s es).sentFrames ++ (txRun s es).queuedFrames
          = s.sentFrames ++ s.queuedFrames ++ capturedFrames es) ∧
      ((txRun s es).resolved = true → (txRun s es).queuedFrames = []) := by
  induction es with
  | nil =>
      intro s hs
      exact ⟨by simp [txRun, capturedFrames], hs⟩
  | cons e es ih =>
      intro s hs
      cases e with
      | frame b =>
          by_cases hr : s.resolved
          · have hq : s.queuedFrames = [] := hs hr
            have step_eq : txStep s (.frame b)
                = { s with sentFrames := s.sentFrames ++ [b] } := by
              simp [txStep, hr]
            have H := ih (txStep s (.frame b)) (by simp [step_eq, hq])
            refine ⟨?_, H.2⟩
            rw [show txRun s (.frame b :: es) = txRun (txStep s (.frame b)) es from rfl]
            rw [H.1]
            simp [step_eq, hq, capturedFrames]
          · have step_eq : txStep s (.frame b)
                = { s with queuedFrames := s.queuedFrames ++ [b] } := by
              simp [txStep, hr]
            have H := ih (txStep s (.frame b))
              (by
                intro habs
                rw [step_eq] at habs
                exact absurd habs hr)
            refine ⟨?_, H.2⟩
            rw [show txRun s (.frame b :: es) = txRun (txStep s (.frame b)) es from rfl]
            rw [H.1]
            simp [step_eq, capturedFrames]
      | resolveConn =>
          have step_eq : txStep s .resolveConn
              = { s with resolved := true,
                         sentFrames := s.sentFrames ++ s.queuedFrames,
                         queuedFrames := [] } := rfl
          have H := ih (txStep s .resolveConn) (by simp [step_eq])
          refine ⟨?_, H.2⟩
          rw [show txRun s (.resolveConn :: es) = txRun (txStep s .resolveConn) es from rfl]
          rw [H.1]
          simp [step_eq, capturedFrames]

/-- Claim C6 (pre-connection frame queueing): starting from a fresh
transmit state, after any interleaving of captured frames and the
connection resolving, the sent frames followed by the still-queued frames
are exactly the captured frames in capture order (nothing dropped, nothing
reordered); and once transmission has become possible the queue is empty
and every captured frame has been transmitted, in capture order. -/
theorem C6_frames_in_order {α : Type} (es : List (TxEvent α)) :
    ((txRun (txInit : TransmitState α) es).sentFrames
        ++ (txRun (txInit : TransmitState α) es).queuedFrames
      = capturedFrames es) ∧
    ((txRun (txInit : TransmitState α) es).resolved = true →
      (txRun (txInit : TransmitState α) es).queuedFrames = [] ∧
      (txRun (txInit : TransmitState α) es).sentFrames = capturedFrames es) := by
  have H := txRun_preserves es (txInit : TransmitState α) (by intro h; rfl)
  have h1 : (txRun (txInit : TransmitState α) es).sentFrames
      ++ (txRun (txInit : TransmitState α) es).queuedFrames = capturedFrames es := by
    rw [H.1]
    simp [txInit]
  refine ⟨h1, ?_⟩
  intro hres
  have hq := H.2 hres
  refine ⟨hq, ?_⟩
  rw [← h1, hq]
  simp

/-- Witness for C6: two frames captured before the connection resolves and
one after; all three are sent, in capture order. -/
theorem C6_frames_in_order_witness :
    ((txRun (txInit : TransmitState ℕ)
        [.frame 1, .frame 2, .resolveConn, .frame 3]).resolved = true) ∧
    ((txRun (txInit : TransmitState ℕ)
        [.frame 1, .frame 2, .resolveConn, .frame 3]).queuedFrames = [] ∧
      (txRun (txInit : TransmitState ℕ)
        [.frame 1, .frame 2, .resolveConn, .frame 3]).sentFrames
        = capturedFrames [TxEvent.frame 1, .frame 2, .resolveConn, .frame 3]) :=
  ⟨by decide,
   (C6_frames_in_order [TxEvent.frame 1, .frame 2, .resolveConn, .frame 3]).2 (by decide)⟩

/-- Claim C9 (prompt-refinement fallback): if the backend refinement call
throws, or returns no text, or returns an empty text, the original prompt
is returned unchanged; and for every backend outcome the function returns
a plain string — either the original prompt or the backend's nonempty
text — so no error ever propagates to the caller. -/
theorem C9_refine_fallback (p : String) :
    refinePromptWithSearch (.error ()) p = p ∧
    refinePromptWithSearch (.ok none) p = p ∧
    refinePromptWithSearch (.ok (some "")) p = p ∧
    (∀ b, refinePromptWithSearch b p = p ∨
      ∃ t, b = .ok (some t) ∧ t ≠ "" ∧ refinePromptWithSearch b p = t) := by
  refine ⟨rfl, rfl, by simp [refinePromptWithSearch], ?_⟩
  intro b
  match b with
  | .error _ => exact Or.inl rfl
  | .ok none => exact Or.inl rfl
  | .ok (some t) =>
      by_cases ht : t = ""
      · subst ht
        exact Or.inl (by simp [refinePromptWithSearch])
      · exact Or.inr ⟨t, rfl, ht, by simp [refinePromptWithSearch, ht]⟩

/-- Claim C10 as stated is false: a successful return need not hold exactly
two strings — a backend response carrying a single generated image yields a
single data URL. -/
theorem C10_two_images_counterexample :
    generateImage (some [⟨"AA"⟩]) = Except.ok ["data:image/jpeg;base64,AA"] ∧
    ¬ (∃ l, generateImage (some [⟨"AA"⟩]) = Except.ok l ∧ l.length = 2) := by
  constructor
  · rfl
  · rintro ⟨l, hl, hlen⟩
    rw [show generateImage (some [⟨"AA"⟩]) = Except.ok ["data:image/jpeg;base64,AA"] from rfl] at hl
    cases hl
    simp at hlen

/-- Claim C10 amended: whenever generateImage returns successfully it
returns one string per image in the backend's generatedImages field (the
request asks for two, but the count is whatever the backend returned),
each formed by prepending "data:image/jpeg;base64," to that image's bytes;
and if the response has no generatedImages field it throws "No images
generated" rather than returning a list. -/
theorem C10_generate_image (imgs : List GeneratedImage) :
    (∃ l, generateImage (some imgs) = Except.ok l ∧
       l.length = imgs.length ∧
       l = imgs.map fun img => "data:image/jpeg;base64," ++ img.imageBytes) ∧
    generateImage none = Except.error "No images generated" := by
  refine ⟨⟨_, rfl, ?_, rfl⟩, rfl⟩
  simp

end FengCanvas
